import Mathlib

/-!
Shallow embedding of the user-API service (`main.py`): a FastAPI app with a
pydantic `User` model, a list-users handler (`GET /users`), a get-user-by-id
handler (`GET /users/{user_id}`), and environment-driven startup that fails
fatally when the MySQL password is absent.

Rows fetched from the database are modelled positionally, responses as an
inductive of the shapes the handlers can produce, and each handler's
try/except chain as an explicit classification of the exception raised by
its body.
-/

/-- One positional row of the Users table as returned by a query:
column 0 is the id, column 1 the username, column 2 the email. -/
structure Row where
  c0 : Int
  c1 : String
  c2 : String
deriving Repr, DecidableEq

/-- The validated User record shape (pydantic model `User`). -/
structure User where
  user_id : Int
  username : String
  email : String
deriving Repr, DecidableEq

/-- Drop whitespace from both ends of a character list. -/
def stripList (l : List Char) : List Char :=
  ((l.dropWhile Char.isWhitespace).reverse.dropWhile Char.isWhitespace).reverse

/-- Python `str.strip()`: drop whitespace from both ends. -/
def pyStrip (s : String) : String :=
  String.mk (stripList s.data)

/-- Split a character list on a separator character; always returns at least
one (possibly empty) piece. -/
def splitChar (c : Char) : List Char → List (List Char)
  | [] => [[]]
  | x :: xs =>
    if x == c then
      [] :: splitChar c xs
    else
      match splitChar c xs with
      | [] => [[x]]
      | y :: ys => (x :: y) :: ys

/-- Modelled from the spec: the email field is "a string conforming to email
address syntax (validated on construction)"; the validator itself is the
external pydantic `EmailStr` type, not part of this repository. Modelled as:
exactly one at-sign, a nonempty local part, and a domain of at least two
nonempty dot-separated labels. -/
def emailValid (s : String) : Bool :=
  match splitChar '@' s.data with
  | [loc, dom] =>
    !loc.isEmpty &&
    (match splitChar '.' dom with
     | [_] => false
     | parts => parts.all (fun p => !p.isEmpty))
  | _ => false

/-- The `username` validator of the source (`username_must_not_be_empty`):
reject a username that is empty after stripping, otherwise return the
stripped value. -/
def username_must_not_be_empty (v : String) : Option String :=
  if pyStrip v == "" then none else some (pyStrip v)

/-- The `user_id` validator of the source (`user_id_must_be_positive`):
reject a negative id, otherwise return it unchanged. -/
def user_id_must_be_positive (v : Int) : Option Int :=
  if v < 0 then none else some v

/-- Pydantic construction `User(user_id=..., username=..., email=...)`:
the `EmailStr` type check and both field validators must all pass, and the
stored username is the validator's stripped return value. Construction
failure models the `ValidationError` pydantic raises. -/
def mkUser (user_id : Int) (username : String) (email : String) : Option User :=
  match user_id_must_be_positive user_id with
  | none => none
  | some i =>
    match username_must_not_be_empty username with
    | none => none
    | some u => if emailValid email then some ⟨i, u, email⟩ else none

/-- Exceptions that can escape a handler body, in the classes its
try/except chain distinguishes. -/
inductive Exc where
  | sqlAlchemy (msg : String)
  | http (status : Nat) (detail : String)
  | other (msg : String)
deriving Repr, DecidableEq

/-- Outcome of the data-access layer for one request: either the fetched
rows, or a `SQLAlchemyError` carrying the raw exception text. -/
inductive DBResult where
  | rows (rs : List Row)
  | failure (msg : String)
deriving Repr, DecidableEq

/-- An HTTP response as the handlers produce it: a 200 with a JSON array of
users, a 200 with a single user, or an error status with a detail body. -/
inductive Response where
  | okUsers (users : List User)
  | okUser (u : User)
  | err (status : Nat) (detail : String)
deriving Repr, DecidableEq

/-- The list comprehension of `get_users`: build a `User` from each row left
to right; the first row whose construction fails raises a
`ValidationError` (not a `SQLAlchemyError`), abandoning the whole list. -/
def buildUsers : List Row → Except Exc (List User)
  | [] => .ok []
  | r :: rest =>
    match mkUser r.c0 r.c1 r.c2 with
    | none => .error (.other "validation error")
    | some u =>
      match buildUsers rest with
      | .error e => .error e
      | .ok us => .ok (u :: us)

/-- The try-block body of `get_users`: execute `SELECT * FROM Users;` and
map the rows. -/
def getUsersBody (db : DBResult) : Except Exc (List User) :=
  match db with
  | .failure msg => .error (.sqlAlchemy msg)
  | .rows rs => buildUsers rs

/-- The except chain of `get_users`: `SQLAlchemyError` becomes a 500 with
detail "Database error occurred"; any other exception is caught by the
bare `except Exception` and becomes a 500 with detail
"Internal server error". Neither body depends on the exception text. -/
def getUsersCatch : Exc → Response
  | .sqlAlchemy _ => .err 500 "Database error occurred"
  | _ => .err 500 "Internal server error"

/-- The `GET /users` handler `get_users`. -/
def get_users (db : DBResult) : Response :=
  match getUsersBody db with
  | .ok us => .okUsers us
  | .error e => getUsersCatch e

/-- `results.fetchone()` after `SELECT * FROM Users WHERE Users.id = %s`:
the first row whose id column equals the requested id, if any. -/
def fetchone (rs : List Row) (user_id : Int) : Option Row :=
  rs.find? (fun r => r.c0 == user_id)

/-- The try-block body of `get_user`: fetch at most one row; no row raises
`HTTPException(404, "Unknown User ID")`; a fetched row is turned into a
`User`, whose construction failure raises a `ValidationError`. -/
def getUserBody (db : DBResult) (user_id : Int) : Except Exc User :=
  match db with
  | .failure msg => .error (.sqlAlchemy msg)
  | .rows rs =>
    match fetchone rs user_id with
    | none => .error (.http 404 "Unknown User ID")
    | some r =>
      match mkUser r.c0 r.c1 r.c2 with
      | none => .error (.other "validation error")
      | some u => .ok u

/-- The except chain of `get_user`, in source order: `SQLAlchemyError`
becomes a 500 "Database error occurred"; an `HTTPException` is re-raised
unchanged (the framework then renders its own status and detail); anything
else becomes a 500 "Internal server error". -/
def getUserCatch : Exc → Response
  | .sqlAlchemy _ => .err 500 "Database error occurred"
  | .http status detail => .err status detail
  | .other _ => .err 500 "Internal server error"

/-- The `GET /users/{user_id}` handler `get_user`. -/
def get_user (db : DBResult) (user_id : Int) : Response :=
  match getUserBody db user_id with
  | .ok u => .okUser u
  | .error e => getUserCatch e

/-- Python truthiness of `os.getenv` output: `None` and the empty string
are both falsy. -/
def pyTruthy : Option String → Bool
  | none => false
  | some s => s != ""

/-- The f-string `connection_url` of the source, with the fixed port. -/
def connection_url (user password url database : String) : String :=
  "mysql://" ++ user ++ ":" ++ password ++ "@" ++ url ++ ":3306/" ++ database

/-- Result of module-level startup: either the engine is created over a
connection URL and the listener can serve, or startup is fatal with the
raised error message. -/
inductive StartupResult where
  | serving (engineUrl : String)
  | fatal (errText : String)
deriving Repr, DecidableEq

/-- Module-level startup of the source: read the four environment values
with their defaults; `if not mysql_password` raise
`ValueError("MySQL password is required")` before any engine or route
exists; otherwise build the connection URL and create the engine. -/
def startup (mysql_url mysql_user mysql_password mysql_database : Option String) :
    StartupResult :=
  let url := mysql_url.getD "localhost"
  let user := mysql_user.getD "root"
  let database_name := mysql_database.getD "Main"
  if pyTruthy mysql_password then
    .serving (connection_url user (mysql_password.getD "") url database_name)
  else
    .fatal "MySQL password is required"

/-! ### Basic lemmas about stripping and the field validators -/

/-- The three User invariants of the data model: a non-negative id, a
username that is non-empty after stripping, and a syntactically valid
email. -/
def userInvariant (u : User) : Prop :=
  0 ≤ u.user_id ∧ pyStrip u.username ≠ "" ∧ emailValid u.email = true

theorem length_dropWhile_le (p : Char → Bool) (l : List Char) :
    (l.dropWhile p).length ≤ l.length := by
  induction l with
  | nil => simp
  | cons x xs ih =>
    by_cases h : p x
    · rw [List.dropWhile_cons_of_pos h]
      exact Nat.le_succ_of_le ih
    · rw [List.dropWhile_cons_of_neg h]

theorem dropWhile_dropWhile (p : Char → Bool) (l : List Char) :
    (l.dropWhile p).dropWhile p = l.dropWhile p := by
  induction l with
  | nil => rfl
  | cons x xs ih =>
    by_cases h : p x
    · rw [List.dropWhile_cons_of_pos h]
      exact ih
    · rw [List.dropWhile_cons_of_neg h, List.dropWhile_cons_of_neg h]

theorem dropWhile_fixpoint_head (p : Char → Bool) (l : List Char)
    (hfix : l.dropWhile p = l) (x : Char) (xs : List Char) (hl : l = x :: xs) :
    p x = false := by
  subst hl
  by_cases hx : p x
  · rw [List.dropWhile_cons_of_pos hx] at hfix
    have hlen := length_dropWhile_le p xs
    rw [hfix] at hlen
    simp at hlen
  · simpa using hx

theorem stripList_stripList (l : List Char) :
    stripList (stripList l) = stripList l := by
  unfold stripList
  have hfix1 : (l.dropWhile Char.isWhitespace).dropWhile Char.isWhitespace
      = l.dropWhile Char.isWhitespace := dropWhile_dropWhile _ l
  have hfix2 : ((l.dropWhile Char.isWhitespace).reverse.dropWhile
        Char.isWhitespace).dropWhile Char.isWhitespace
      = (l.dropWhile Char.isWhitespace).reverse.dropWhile Char.isWhitespace :=
    dropWhile_dropWhile _ _
  have h1 : (((l.dropWhile Char.isWhitespace).reverse.dropWhile
        Char.isWhitespace).reverse).dropWhile Char.isWhitespace
      = ((l.dropWhile Char.isWhitespace).reverse.dropWhile
        Char.isWhitespace).reverse := by
    cases hc : ((l.dropWhile Char.isWhitespace).reverse.dropWhile
        Char.isWhitespace).reverse with
    | nil => rfl
    | cons x xs =>
      have hsplit : (l.dropWhile Char.isWhitespace).reverse.takeWhile
            Char.isWhitespace ++ (l.dropWhile Char.isWhitespace).reverse.dropWhile
            Char.isWhitespace
          = (l.dropWhile Char.isWhitespace).reverse :=
        List.takeWhile_append_dropWhile _ _
      have hr1eq : l.dropWhile Char.isWhitespace
          = x :: (xs ++ ((l.dropWhile Char.isWhitespace).reverse.takeWhile
              Char.isWhitespace).reverse) := by
        have hthis := congrArg List.reverse hsplit
        rw [List.reverse_append, List.reverse_reverse] at hthis
        calc l.dropWhile Char.isWhitespace
            = ((l.dropWhile Char.isWhitespace).reverse.dropWhile
                Char.isWhitespace).reverse ++
              ((l.dropWhile Char.isWhitespace).reverse.takeWhile
                Char.isWhitespace).reverse := hthis.symm
          _ = (x :: xs) ++ ((l.dropWhile Char.isWhitespace).reverse.takeWhile
                Char.isWhitespace).reverse := by rw [hc]
          _ = x :: (xs ++ ((l.dropWhile Char.isWhitespace).reverse.takeWhile
                Char.isWhitespace).reverse) := rfl
      have hx : Char.isWhitespace x = false :=
        dropWhile_fixpoint_head _ _ hfix1 x _ hr1eq
      rw [List.dropWhile_cons_of_neg (by simp [hx])]
  rw [h1, List.reverse_reverse, hfix2]

theorem pyStrip_pyStrip (s : String) : pyStrip (pyStrip s) = pyStrip s := by
  unfold pyStrip
  rw [stripList_stripList]

theorem user_id_validator_some (i v : Int)
    (h : user_id_must_be_positive i = some v) : 0 ≤ i ∧ v = i := by
  unfold user_id_must_be_positive at h
  by_cases h1 : i < 0
  · rw [if_pos h1] at h
    exact Option.noConfusion h
  · rw [if_neg h1] at h
    cases h
    exact ⟨Int.not_lt.mp h1, rfl⟩

theorem username_validator_some (u v : String)
    (h : username_must_not_be_empty u = some v) :
    pyStrip u ≠ "" ∧ v = pyStrip u := by
  unfold username_must_not_be_empty at h
  by_cases h1 : pyStrip u == ""
  · rw [if_pos h1] at h
    exact Option.noConfusion h
  · rw [if_neg h1] at h
    cases h
    exact ⟨by simpa using h1, rfl⟩

theorem mkUser_eq_some (i : Int) (u e : String) (usr : User)
    (h : mkUser i u e = some usr) :
    0 ≤ i ∧ pyStrip u ≠ "" ∧ emailValid e = true ∧
      usr.user_id = i ∧ usr.username = pyStrip u ∧ usr.email = e := by
  unfold mkUser at h
  cases hv1 : user_id_must_be_positive i <;> rw [hv1] at h
  case none => exact Option.noConfusion h
  case some iv =>
    cases hv2 : username_must_not_be_empty u <;> rw [hv2] at h
    case none => exact Option.noConfusion h
    case some uv =>
      simp only [] at h
      obtain ⟨hi, hiv⟩ := user_id_validator_some i iv hv1
      obtain ⟨hu, huv⟩ := username_validator_some u uv hv2
      by_cases hem : emailValid e
      · rw [if_pos hem] at h
        cases h
        exact ⟨hi, hu, hem, hiv, huv, rfl⟩
      · rw [if_neg hem] at h
        exact Option.noConfusion h

theorem mkUser_eq_some_of_valid (i : Int) (u e : String) (h1 : 0 ≤ i)
    (h2 : pyStrip u ≠ "") (h3 : emailValid e = true) :
    mkUser i u e = some ⟨i, pyStrip u, e⟩ := by
  unfold mkUser user_id_must_be_positive username_must_not_be_empty
  rw [if_neg (Int.not_lt.mpr h1)]
  simp only []
  rw [if_neg (by simpa using h2)]
  simp only []
  rw [if_pos h3]

/-! ### Lemmas about the handler bodies -/

theorem buildUsers_ok_of_valid (rs : List Row)
    (h : ∀ r ∈ rs, (mkUser r.c0 r.c1 r.c2).isSome = true) :
    ∃ us, buildUsers rs = .ok us := by
  induction rs with
  | nil => exact ⟨[], rfl⟩
  | cons r rest ih =>
    have hr := h r (List.mem_cons_self r rest)
    cases hmk : mkUser r.c0 r.c1 r.c2 with
    | none => rw [hmk] at hr; simp at hr
    | some u =>
      obtain ⟨us, hus⟩ := ih (fun x hx => h x (List.mem_cons_of_mem r hx))
      refine ⟨u :: us, ?_⟩
      unfold buildUsers
      rw [hmk, hus]

theorem buildUsers_ok_forall₂ (rs : List Row) (us : List User)
    (h : buildUsers rs = .ok us) :
    List.Forall₂ (fun (r : Row) (u : User) => mkUser r.c0 r.c1 r.c2 = some u)
      rs us := by
  induction rs generalizing us with
  | nil =>
    unfold buildUsers at h
    cases h
    exact .nil
  | cons r rest ih =>
    unfold buildUsers at h
    cases hmk : mkUser r.c0 r.c1 r.c2 <;> rw [hmk] at h
    case none => exact Except.noConfusion h
    case some u =>
      simp only [] at h
      cases hrest : buildUsers rest <;> rw [hrest] at h
      case error e => exact Except.noConfusion h
      case ok us2 =>
        simp only [] at h
        cases h
        exact .cons hmk (ih us2 hrest)

theorem buildUsers_error_of_bad (rs : List Row) (r : Row) (hmem : r ∈ rs)
    (hbad : mkUser r.c0 r.c1 r.c2 = none) :
    buildUsers rs = .error (.other "validation error") := by
  induction rs with
  | nil => cases hmem
  | cons x rest ih =>
    rcases List.mem_cons.mp hmem with heq | hmem2
    · subst heq
      unfold buildUsers
      rw [hbad]
    · unfold buildUsers
      cases hmk : mkUser x.c0 x.c1 x.c2 with
      | none => rfl
      | some u =>
        simp only []
        rw [ih hmem2]

theorem get_users_okUsers_inv (rs : List Row) (us : List User)
    (h : get_users (.rows rs) = .okUsers us) : buildUsers rs = .ok us := by
  unfold get_users getUsersBody at h
  simp only [] at h
  cases hb : buildUsers rs <;> rw [hb] at h <;> simp only [] at h
  case error e => cases e <;> exact Response.noConfusion h
  case ok us2 =>
    cases h
    rfl

theorem get_user_okUser_inv (rs : List Row) (user_id : Int) (usr : User)
    (h : get_user (.rows rs) user_id = .okUser usr) :
    ∃ r, fetchone rs user_id = some r ∧ mkUser r.c0 r.c1 r.c2 = some usr := by
  unfold get_user getUserBody at h
  simp only [] at h
  cases hf : fetchone rs user_id <;> rw [hf] at h <;> simp only [] at h
  case none => exact Response.noConfusion h
  case some r =>
    cases hm : mkUser r.c0 r.c1 r.c2 <;> rw [hm] at h <;> simp only [] at h
    case none => exact Response.noConfusion h
    case some u =>
      cases h
      exact ⟨r, rfl, hm⟩

theorem fetchone_some_c0 (rs : List Row) (user_id : Int) (r : Row)
    (h : fetchone rs user_id = some r) : r.c0 = user_id := by
  have := List.find?_some h
  simpa using this

/-! ### The claims -/

/-- C1, counterexample: the id -1 is present in the Users table (the row's
id column equals the requested id), yet `get_user` answers 500
"Internal server error" rather than 200 with a User value, because the
stored row fails User validation on construction. -/
theorem c1_counterexample :
    fetchone [⟨-1, "bob", "bob@mail.com"⟩] (-1) =
        some ⟨-1, "bob", "bob@mail.com"⟩ ∧
      get_user (.rows [⟨-1, "bob", "bob@mail.com"⟩]) (-1) =
        .err 500 "Internal server error" := by
  decide

/-- C1 (amended): for every id whose row is present in the Users table and
passes User validation, the get-user-by-id handler returns HTTP 200 with a
single User value built positionally from the fetched row, whose `user_id`
field equals the requested id. -/
theorem c1_get_user_found (rs : List Row) (user_id : Int) (r : Row)
    (usr : User) (h1 : fetchone rs user_id = some r)
    (h2 : mkUser r.c0 r.c1 r.c2 = some usr) :
    get_user (.rows rs) user_id = .okUser usr ∧ usr.user_id = user_id := by
  constructor
  · unfold get_user getUserBody
    simp only []
    rw [h1]
    simp only []
    rw [h2]
  · have hc0 := fetchone_some_c0 rs user_id r h1
    have hm := mkUser_eq_some r.c0 r.c1 r.c2 usr h2
    rw [hm.2.2.2.1]
    exact hc0

/-- Witness for C1 at a concrete one-row table. -/
theorem c1_witness :
    get_user (.rows [⟨2, "ann", "ann@mail.com"⟩]) 2 =
        .okUser ⟨2, "ann", "ann@mail.com"⟩ ∧
      (⟨2, "ann", "ann@mail.com"⟩ : User).user_id = 2 :=
  c1_get_user_found [⟨2, "ann", "ann@mail.com"⟩] 2 ⟨2, "ann", "ann@mail.com"⟩
    ⟨2, "ann", "ann@mail.com"⟩ (by decide) (by decide)

/-- C2: for an id with no matching row, the `get_user` body raises the 404
"Unknown User ID" HTTPException, the except chain maps that exception to a
response with the same status and detail, and the handler's final answer is
that 404 — it is never reclassified as a 500. -/
theorem c2_not_found (rs : List Row) (user_id : Int)
    (h : fetchone rs user_id = none) :
    getUserBody (.rows rs) user_id = .error (.http 404 "Unknown User ID") ∧
      getUserCatch (.http 404 "Unknown User ID") =
        .err 404 "Unknown User ID" ∧
      get_user (.rows rs) user_id = .err 404 "Unknown User ID" := by
  refine ⟨?_, rfl, ?_⟩
  · unfold getUserBody
    simp only []
    rw [h]
  · unfold get_user getUserBody
    simp only []
    rw [h]
    rfl

/-- Witness for C2 on the empty table. -/
theorem c2_witness :
    getUserBody (.rows []) 7 = .error (.http 404 "Unknown User ID") ∧
      getUserCatch (.http 404 "Unknown User ID") =
        .err 404 "Unknown User ID" ∧
      get_user (.rows []) 7 = .err 404 "Unknown User ID" :=
  c2_not_found [] 7 (by decide)

/-- C3: when every fetched row passes User validation, `get_users` answers
HTTP 200 with an array of exactly the rows' length, in the rows' order,
each element constructed positionally from its row and satisfying the User
invariants. -/
theorem c3_get_users_all_valid (rs : List Row)
    (h : ∀ r ∈ rs, (mkUser r.c0 r.c1 r.c2).isSome = true) :
    ∃ us : List User, get_users (.rows rs) = .okUsers us ∧
      us.length = rs.length ∧
      List.Forall₂ (fun (r : Row) (u : User) =>
        mkUser r.c0 r.c1 r.c2 = some u ∧ userInvariant u) rs us := by
  obtain ⟨us, hus⟩ := buildUsers_ok_of_valid rs h
  have hf := buildUsers_ok_forall₂ rs us hus
  refine ⟨us, ?_, ?_, ?_⟩
  · unfold get_users getUsersBody
    simp only []
    rw [hus]
  · exact hf.length_eq.symm
  · refine List.Forall₂.imp ?_ hf
    intro r u hmk
    obtain ⟨hi, hu, he, hid, hun, hem⟩ := mkUser_eq_some _ _ _ _ hmk
    refine ⟨hmk, ?_, ?_, ?_⟩
    · rw [hid]; exact hi
    · rw [hun, pyStrip_pyStrip]; exact hu
    · rw [hem]; exact he

/-- Witness for C3 at a concrete one-row table. -/
theorem c3_witness :
    ∃ us : List User,
      get_users (.rows [⟨1, "alice", "alice@mail.com"⟩]) = .okUsers us ∧
        us.length = [(⟨1, "alice", "alice@mail.com"⟩ : Row)].length ∧
        List.Forall₂ (fun (r : Row) (u : User) =>
          mkUser r.c0 r.c1 r.c2 = some u ∧ userInvariant u)
          [⟨1, "alice", "alice@mail.com"⟩] us :=
  c3_get_users_all_valid [⟨1, "alice", "alice@mail.com"⟩] (by decide)

/-- C4: every successfully constructed User satisfies the three invariants
(non-negative id, username non-empty after stripping, valid email syntax),
and construction fails whenever any single field violates its invariant. -/
theorem c4_user_construction (i : Int) (u e : String) :
    (∀ usr : User, mkUser i u e = some usr → userInvariant usr) ∧
      (i < 0 → mkUser i u e = none) ∧
      (pyStrip u = "" → mkUser i u e = none) ∧
      (emailValid e = false → mkUser i u e = none) := by
  refine ⟨?_, ?_, ?_, ?_⟩
  · intro usr h
    obtain ⟨hi, hu, he, hid, hun, hem⟩ := mkUser_eq_some i u e usr h
    unfold userInvariant
    refine ⟨?_, ?_, ?_⟩
    · rw [hid]; exact hi
    · rw [hun, pyStrip_pyStrip]; exact hu
    · rw [hem]; exact he
  · intro h
    unfold mkUser user_id_must_be_positive
    rw [if_pos h]
  · intro h
    unfold mkUser username_must_not_be_empty
    cases user_id_must_be_positive i
    · rfl
    · simp only []
      rw [if_pos (by simp [h])]
  · intro h
    unfold mkUser
    cases user_id_must_be_positive i <;>
      [skip; cases username_must_not_be_empty u] <;> simp [h]

/-- Witness for C4: one accepted construction and one rejection per
violated field. -/
theorem c4_witness :
    userInvariant ⟨4, "bob", "bob@mail.com"⟩ ∧
      mkUser (-1) "bob" "bob@mail.com" = none ∧
      mkUser 4 "   " "bob@mail.com" = none ∧
      mkUser 4 "bob" "bobmail" = none :=
  ⟨(c4_user_construction 4 "bob" "bob@mail.com").1 ⟨4, "bob", "bob@mail.com"⟩
      (by decide),
    (c4_user_construction (-1) "bob" "bob@mail.com").2.1 (by decide),
    (c4_user_construction 4 "   " "bob@mail.com").2.2.1 (by decide),
    (c4_user_construction 4 "bob" "bobmail").2.2.2 (by decide)⟩

/-- C5: a data-access-layer error makes both handlers answer 500 with
exactly the fixed body "Database error occurred", whatever the raw
exception text was — so that text never reaches the response. -/
theorem c5_db_error (msg : String) (user_id : Int) :
    get_users (.failure msg) = .err 500 "Database error occurred" ∧
      get_user (.failure msg) user_id = .err 500 "Database error occurred" :=
  ⟨rfl, rfl⟩

/-- C6: one fetched row failing User validation fails the whole listing
through the generic unexpected-error path: 500 with body
"Internal server error" (not "Database error occurred"), and no partial
array of valid rows is returned. -/
theorem c6_bad_row_fails_listing (rs : List Row) (r : Row) (hmem : r ∈ rs)
    (hbad : mkUser r.c0 r.c1 r.c2 = none) :
    get_users (.rows rs) = .err 500 "Internal server error" := by
  have hb := buildUsers_error_of_bad rs r hmem hbad
  unfold get_users getUsersBody
  simp only []
  rw [hb]
  rfl

/-- Witness for C6: a two-row table whose second row has an empty
username. -/
theorem c6_witness :
    get_users (.rows [⟨1, "alice", "alice@mail.com"⟩, ⟨2, "", "b@mail.com"⟩])
      = .err 500 "Internal server error" :=
  c6_bad_row_fails_listing
    [⟨1, "alice", "alice@mail.com"⟩, ⟨2, "", "b@mail.com"⟩]
    ⟨2, "", "b@mail.com"⟩ (by decide) (by decide)

/-- C7: with no password configured, module-level startup raises the fatal
"MySQL password is required" error whatever the other configuration values
are; no serving state (and no engine URL) is ever produced. -/
theorem c7_missing_password_fatal
    (mysql_url mysql_user mysql_database : Option String) :
    startup mysql_url mysql_user none mysql_database =
      .fatal "MySQL password is required" :=
  rfl

/-- C8: the get-user-by-id handler is a deterministic function of the id
and the database state — any two invocations on the same id and state
produce equal responses. -/
theorem c8_get_user_deterministic (db : DBResult) (user_id : Int)
    (r1 r2 : Response) (h1 : get_user db user_id = r1)
    (h2 : get_user db user_id = r2) : r1 = r2 := by
  rw [← h1, ← h2]

/-- Witness for C8: two invocations on a concrete table and id. -/
theorem c8_witness :
    Response.okUser ⟨3, "cat", "cat@mail.com"⟩ =
      Response.okUser ⟨3, "cat", "cat@mail.com"⟩ :=
  c8_get_user_deterministic (.rows [⟨3, "cat", "cat@mail.com"⟩]) 3
    (.okUser ⟨3, "cat", "cat@mail.com"⟩) (.okUser ⟨3, "cat", "cat@mail.com"⟩)
    (by decide) (by decide)

/-- C9: construction stores the stripped username, and the User values
either handler returns carry the stripped username column, not the raw
stored value. -/
theorem c9_username_normalized :
    (∀ (i : Int) (u e : String) (usr : User),
        mkUser i u e = some usr → usr.username = pyStrip u) ∧
      (∀ (rs : List Row) (user_id : Int) (usr : User),
        get_user (.rows rs) user_id = .okUser usr →
          ∃ r, fetchone rs user_id = some r ∧ usr.username = pyStrip r.c1) ∧
      (∀ (rs : List Row) (us : List User),
        get_users (.rows rs) = .okUsers us →
          List.Forall₂ (fun (r : Row) (u : User) => u.username = pyStrip r.c1)
            rs us) := by
  refine ⟨?_, ?_, ?_⟩
  · intro i u e usr h
    exact (mkUser_eq_some i u e usr h).2.2.2.2.1
  · intro rs user_id usr h
    obtain ⟨r, hf, hm⟩ := get_user_okUser_inv rs user_id usr h
    exact ⟨r, hf, (mkUser_eq_some _ _ _ _ hm).2.2.2.2.1⟩
  · intro rs us h
    have hb := get_users_okUsers_inv rs us h
    refine List.Forall₂.imp ?_ (buildUsers_ok_forall₂ rs us hb)
    intro r u hmk
    exact (mkUser_eq_some _ _ _ _ hmk).2.2.2.2.1

/-- Witness for C9: a username stored with surrounding whitespace comes out
stripped. -/
theorem c9_witness :
    (⟨1, "bob", "bob@mail.com"⟩ : User).username = pyStrip "  bob  " :=
  c9_username_normalized.1 1 "  bob  " "bob@mail.com"
    ⟨1, "bob", "bob@mail.com"⟩ (by decide)

/-- C10: an empty-string password is falsy in Python, so startup fails with
exactly the same fatal error as an absent password; the empty password is
never passed through to a connection string. -/
theorem c10_empty_password_fatal
    (mysql_url mysql_user mysql_database : Option String) :
    startup mysql_url mysql_user (some "") mysql_database =
        .fatal "MySQL password is required" ∧
      startup mysql_url mysql_user (some "") mysql_database =
        startup mysql_url mysql_user none mysql_database :=
  ⟨rfl, rfl⟩
